import Mathlib

/-!
Verification of scripts/determine-required-model-files.py.

The script resolves, for each model descriptor in a catalog, the set of
required files inside the downloaded archive and regenerates a label.
Pure helpers (format_size, extract_model_metadata, generate_label,
determine_required_files, extract_archive, the model-root resolution) are
embedded directly as Lean functions on Nat / String / List.  Effectful
steps (HTTP probes, the filesystem, archive extraction at runtime) are
embedded by passing an explicit environment record describing the outcome
of each external operation, and exceptions are Except values; the script
swallows every per-descriptor exception, so the embedded pipeline step is
a total function.

Python floats appear only in format_size, where the value is an integer
byte count divided by powers of 1024: such divisions only shift the
binary exponent and are exact in IEEE-754 for counts below 2 to the 53,
so format_size is embedded with exact natural arithmetic, the Python
string formats .0f and .1f being round-half-to-even rendering.
-/

namespace ModelFiles

/-- ASCII lowercasing of one character, as Python str.lower does on the
ASCII letters that occur in this catalog (keys, labels, filenames). -/
def pyLowerChar (c : Char) : Char :=
  if 'A' ≤ c && c ≤ 'Z' then Char.ofNat (c.toNat + 32) else c

/-- ASCII uppercasing of one character, used by str.capitalize. -/
def pyUpperChar (c : Char) : Char :=
  if 'a' ≤ c && c ≤ 'z' then Char.ofNat (c.toNat - 32) else c

/-- Python str.lower restricted to ASCII input. -/
def pyLower (s : String) : String := ⟨s.data.map pyLowerChar⟩

/-- Python str.capitalize: first character upper, rest lower. -/
def pyCapitalize (s : String) : String :=
  match s.data with
  | [] => ""
  | c :: rest => ⟨pyUpperChar c :: rest.map pyLowerChar⟩

/-- Substring occurrence test on character lists: true when sub occurs
contiguously inside l (the Python "in" operator on strings). -/
def listHasSub (sub : List Char) : List Char → Bool
  | [] => sub.isEmpty
  | c :: t => List.isPrefixOf sub (c :: t) || listHasSub sub t

/-- The Python expression "sub in hay" on strings. -/
def pyIn (sub hay : String) : Bool := listHasSub sub.data hay.data

/-- Python s.startswith(pre). -/
def pyStartsWith (s pre : String) : Bool := List.isPrefixOf pre.data s.data

/-- Python s.endswith(post). -/
def pyEndsWith (s post : String) : Bool := List.isSuffixOf post.data s.data

/-- Python s.split(sep)[-1] for a one-character separator: the suffix of
s after the last occurrence of sep, the whole of s when sep is absent. -/
def pyLastSegment (s : String) (sep : Char) : String :=
  ⟨(s.data.reverse.takeWhile (fun c => c != sep)).reverse⟩

/-- os.path.basename on a URL-like string (split at slashes). -/
def basename (url : String) : String := pyLastSegment url '/'

/-- os.path.join for a relative second component. -/
def pathJoin (a b : String) : String := a ++ "/" ++ b

/-- One fuel-counted step list of Python str.replace on character lists:
at each position a non-overlapping match of pat is replaced by rep.  The
fuel only bounds the recursion depth; each step consumes one unit and at
least one character, so with fuel at least the length of the list the
exhaustion branch is never reached.  The pattern replaced by the script
is the literal file scheme, which is nonempty. -/
def listReplaceFuel (pat rep : List Char) : Nat → List Char → List Char
  | 0, l => l
  | _ + 1, [] => []
  | fuel + 1, c :: t =>
    if !pat.isEmpty && List.isPrefixOf pat (c :: t) then
      rep ++ listReplaceFuel pat rep fuel (t.drop (pat.length - 1))
    else c :: listReplaceFuel pat rep fuel t

/-- Python s.replace(pat, rep) for a nonempty pattern. -/
def pyReplace (s pat rep : String) : String :=
  ⟨listReplaceFuel pat.data rep.data s.data.length s.data⟩

/-- Lexicographic code-point comparison of character lists, the order
Python uses to compare strings. -/
def listLeChars : List Char → List Char → Bool
  | [], _ => true
  | _ :: _, [] => false
  | a :: as, b :: bs =>
    if a < b then true else if b < a then false else listLeChars as bs

/-- Python string comparison a less-or-equal b. -/
def strLe (a b : String) : Bool := listLeChars a.data b.data

/-- Python sorted on strings: lexicographic by code point.  The string
order is linear, so the sorted permutation of a list is unique and any
correct sorting algorithm returns what Python sorted returns; insertion
sort is used because it is structurally recursive. -/
def sortStr (l : List String) : List String :=
  List.insertionSort (fun a b => strLe a b = true) l

/-- Round num / den to the nearest integer, ties to even: the rounding
of IEEE-754 formatting with format .0f applied to the exact value. -/
def roundHalfEven (num den : Nat) : Nat :=
  if 2 * (num % den) < den then num / den
  else if 2 * (num % den) > den then num / den + 1
  else if (num / den) % 2 == 0 then num / den else num / den + 1

/-- Embeds ModelAnalyzer.format_size (lines 125 to 136).  The Python
loop over units B, KB, MB, GB with repeated division by 1024 is unrolled
into the equivalent range tests; the int truncation of the B branch is
the identity on an integral byte count, and the .0f and .1f formats are
round-half-to-even of the exact quotient. -/
def format_size (size_bytes : Nat) : String :=
  if size_bytes = 0 then "unknown"
  else if size_bytes < 1024 then toString size_bytes ++ "B"
  else if size_bytes < 1024 ^ 2 then toString (roundHalfEven size_bytes 1024) ++ "KB"
  else if size_bytes < 1024 ^ 3 then toString (roundHalfEven size_bytes (1024 ^ 2)) ++ "MB"
  else if size_bytes < 1024 ^ 4 then toString (roundHalfEven size_bytes (1024 ^ 3)) ++ "GB"
  else
    let tenths := roundHalfEven (10 * size_bytes) (1024 ^ 4)
    toString (tenths / 10) ++ "." ++ toString (tenths % 10) ++ "TB"

/-- Unit suffix attached by format_size at scale index k. -/
def size_unit_name : Nat → String
  | 0 => "B"
  | 1 => "KB"
  | 2 => "MB"
  | 3 => "GB"
  | _ => "TB"

/-- One catalog entry (a model descriptor).  The script reads fields with
dict.get and a default of the empty string (or empty list), so an absent
field is embedded as that default. -/
structure Model where
  key : String
  type : String
  kind : String
  url : String
  folder : String
  label : String
  required : List String
deriving DecidableEq

/-- The metadata dictionary built by extract_model_metadata.  The size
entry is initialised to the empty string and never updated by the
source, so it is carried along as a constant field. -/
structure Metadata where
  name : String
  quality : String
  languages : String
  tasks : String
  size : String
deriving DecidableEq

/-- Embeds ModelAnalyzer.extract_model_metadata (lines 138 to 203).
The Python language and task sets contain pairwise distinct constants,
so each is embedded as a duplicate-free list that is sorted and joined
with a comma exactly as the source does. -/
def extract_model_metadata (model : Model) : Metadata :=
  let key := model.key
  let label := model.label
  let model_type := model.type
  let kind := model.kind
  let quality :=
    if pyIn "tiny" (pyLower key) then "tiny"
    else if pyIn "small" (pyLower key) then "small"
    else if pyIn "base" (pyLower key) then "base"
    else if pyIn "medium" (pyLower key) then "medium"
    else if pyIn "large" (pyLower key) then "large"
    else if pyIn "low" (pyLower label) then "low"
    else if pyIn "high" (pyLower label) then "high"
    else ""
  let languages : List String :=
    (if pyIn "en_US" key || pyIn "en_GB" key || pyIn "whisper" (pyLower key)
        || pyIn "english" (pyLower label) then ["English"] else []) ++
    (if pyIn "zh" key || pyIn "bilingual" (pyLower key) then ["Chinese"] else []) ++
    (if pyIn "bilingual" (pyLower key) then ["Multilingual"] else [])
  let languagesStr :=
    if languages.isEmpty then "" else String.intercalate ", " (sortStr languages)
  let tasks : List String :=
    if model_type == "stt" then ["STT"]
    else if model_type == "tts" then ["TTS"]
    else if model_type == "vad" then ["VAD"]
    else if model_type == "vision" then
      if pyIn "detection" (pyLower kind) then ["Object Detection"]
      else if pyIn "classification" (pyLower kind) then ["Image Classification"]
      else if pyIn "segmentation" (pyLower kind) then ["Image Segmentation"]
      else ["Vision"]
    else []
  let tasksStr :=
    if tasks.isEmpty then "" else String.intercalate ", " (sortStr tasks)
  { name := key, quality := quality, languages := languagesStr,
    tasks := tasksStr, size := "" }

/-- Embeds ModelAnalyzer.generate_label (lines 205 to 231). -/
def generate_label (model : Model) (size_str : String) : String :=
  let metadata := extract_model_metadata model
  let parts := [metadata.name]
  let parts :=
    if metadata.quality ≠ "" && metadata.quality ≠ "base" then
      parts ++ ["[" ++ pyCapitalize metadata.quality ++ "]"]
    else parts
  let parts :=
    if metadata.tasks ≠ "" then
      let seg := "(" ++ metadata.tasks
      let seg := if metadata.languages ≠ "" then seg ++ ", " ++ metadata.languages else seg
      let seg := if size_str ≠ "" then seg ++ ", ~" ++ size_str else seg
      parts ++ [seg ++ ")"]
    else if metadata.languages ≠ "" then
      let seg := "(" ++ metadata.languages
      let seg := if size_str ≠ "" then seg ++ ", ~" ++ size_str else seg
      parts ++ [seg ++ ")"]
    else if size_str ≠ "" then parts ++ ["(~" ++ size_str ++ ")"]
    else parts
  String.intercalate " " parts

/-- Embeds ModelAnalyzer.determine_required_files (lines 260 to 295).
The source iterates over the inventory set appending matches and sorts
the result, which equals sorting the filtered inventory; the files_lower
dictionary built at line 268 is never used by the source.  Note that the
extension test calls endswith on the original name while only the token
and vocab substring tests use the lowercased name. -/
def determine_required_files (files : List String) (model_type : String) : List String :=
  let required :=
    if model_type == "stt" then
      files.filter (fun file =>
        pyEndsWith file ".onnx" || pyIn "token" (pyLower file) || pyIn "vocab" (pyLower file))
    else if model_type == "tts" then
      files.filter (fun file =>
        pyEndsWith file ".onnx" || pyIn "token" (pyLower file) || pyIn "vocab" (pyLower file))
    else if model_type == "vad" then
      files.filter (fun file => pyEndsWith file ".onnx")
    else if model_type == "vision" then
      files.filter (fun file => pyEndsWith file ".onnx")
    else []
  sortStr required

/-- Headers of one HTTP response, as read by get_file_size; a header
access with dict.get yields none when the header is absent. -/
structure HttpResp where
  contentLength : Option String
  contentRange : Option String
deriving DecidableEq

/-- Outcome of the two network operations get_file_size can perform for
the URL under consideration: the HEAD request and the ranged GET.  An
error value models urlopen raising. -/
structure NetEnv where
  head : Except Unit HttpResp
  rangeGet : Except Unit HttpResp

/-- Python int applied to a header string: a plain digit string parses,
anything else raises (embedded as none). -/
def parsePyInt (s : String) : Option Nat :=
  if s.data.isEmpty || !s.data.all Char.isDigit then none
  else some (s.data.foldl (fun acc c => acc * 10 + (c.toNat - 48)) 0)

/-- The content-length fallback at the end of the ranged-GET branch of
get_file_size (lines 116 to 119): a truthy header is parsed, a parse
error is caught by the surrounding except and yields 0, and the second
component records that the ranged fetch was issued. -/
def clFallback (resp : HttpResp) : Nat × Bool :=
  match resp.contentLength with
  | some cl =>
    if cl ≠ "" then
      match parsePyInt cl with
      | some n => (n, true)
      | none => (0, true)
    else (0, true)
  | none => (0, true)

/-- The except branch of get_file_size (lines 103 to 121): a single-byte
ranged GET, reading the total from the content-range header and falling
back to content-length of the same response; every failure yields 0. -/
def rangeFallback (env : NetEnv) : Nat × Bool :=
  match env.rangeGet with
  | .error _ => (0, true)
  | .ok resp =>
    match resp.contentRange with
    | some cr =>
      if cr ≠ "" then
        let total := pyLastSegment cr '/'
        if total ≠ "" then
          match parsePyInt total with
          | some n => (n, true)
          | none => (0, true)
        else clFallback resp
      else clFallback resp
    | none => clFallback resp

/-- Embeds ModelAnalyzer.get_file_size (lines 94 to 123) for the URL
described by the environment.  The returned Boolean records whether the
ranged GET was issued.  The try block covers both the HEAD request and
the int conversion of its content-length, so a parse failure enters the
fallback, while a HEAD response without a truthy content-length falls
out of the try and returns 0 with no fallback. -/
def get_file_size (env : NetEnv) : Nat × Bool :=
  match env.head with
  | .error _ => rangeFallback env
  | .ok resp =>
    match resp.contentLength with
    | some cl =>
      if cl ≠ "" then
        match parsePyInt cl with
        | some n => (n, false)
        | none => rangeFallback env
      else (0, false)
    | none => (0, false)

/-- Typed failures of the extraction step: the ValueError raised for an
unsupported archive format, and any runtime extraction error. -/
inductive ExtractErr where
  | unsupportedFormat (path : String)
  | extractionFailed
deriving DecidableEq

/-- Embeds ModelAnalyzer.extract_archive (lines 233 to 244): dispatch on
the filename suffix, with tar and zip extraction whose runtime success
is given by the environment flag, and a typed unsupported-format error
for every other suffix. -/
def extract_archive (runtimeOk : Bool) (archive_path : String) : Except ExtractErr Unit :=
  if pyEndsWith archive_path ".tar.bz2" || pyEndsWith archive_path ".tar.gz" then
    if runtimeOk then .ok () else .error .extractionFailed
  else if pyEndsWith archive_path ".zip" then
    if runtimeOk then .ok () else .error .extractionFailed
  else .error (.unsupportedFormat archive_path)

/-- Embeds the model-root resolution of download_and_analyze_model
(lines 373 to 386): with exactly one extracted subdirectory descend into
it (both branches of the source descend into the same directory, whether
or not its name matches the declared folder name); otherwise the
extraction destination itself is the model root. -/
def resolve_model_root (extract_dir : String) (subdirs : List String)
    (folder_name : String) : String :=
  if subdirs.length == 1 && subdirs.headD "" == folder_name then
    pathJoin extract_dir (subdirs.headD "")
  else if subdirs.length == 1 then
    pathJoin extract_dir (subdirs.headD "")
  else extract_dir

/-- Outcome of the filesystem and download operations one descriptor
run can perform. -/
structure FsEnv where
  fileExists : String → Bool
  getsize : String → Nat
  downloadOk : Bool
  copyExtractOk : Bool
  subdirsOf : String → List String
  filesUnder : String → List String

/-- Embeds ModelAnalyzer.download_and_analyze_model (lines 297 to 405):
resolve the archive to a local path (an existing file for a file URL,
else the cache path, downloading on a cache miss), copy a bare ONNX
file or dispatch on the archive suffix, resolve the model root, walk
the inventory and classify.  Every failure is reported and yields the
empty list, mirroring the early returns of the source; the second
component collects the reported messages. -/
def download_and_analyze_model (fs : FsEnv) (temp_dir cache_dir : String)
    (url folder_name model_type : String) : List String × List String :=
  let fetched : Except (List String) (String × List String) :=
    if pyStartsWith url "file://" then
      let local_path := pyReplace url "file://" ""
      if fs.fileExists local_path then .ok (local_path, [])
      else .error ["ERROR: File not found: " ++ local_path]
    else
      let filename := basename url
      let cache_path := pathJoin cache_dir filename
      if fs.fileExists cache_path then .ok (cache_path, ["Using cached file: " ++ cache_path])
      else if fs.downloadOk then .ok (cache_path, ["Downloaded to cache: " ++ cache_path])
      else .error ["ERROR: Failed to download"]
  match fetched with
  | .error log => ([], log)
  | .ok (archive_path, log) =>
    let extract_dir := pathJoin (pathJoin temp_dir "extracted") folder_name
    let extractStep : Except (List String) Unit :=
      if pyEndsWith archive_path ".onnx" then
        if fs.copyExtractOk then .ok () else .error ["ERROR: Failed to extract"]
      else
        match extract_archive fs.copyExtractOk archive_path with
        | .error (.unsupportedFormat p) =>
          .error ["ERROR: Failed to extract: Unsupported archive format: " ++ p]
        | .error .extractionFailed => .error ["ERROR: Failed to extract"]
        | .ok _ => .ok ()
    match extractStep with
    | .error log2 => ([], log ++ log2)
    | .ok _ =>
      let model_root := resolve_model_root extract_dir (fs.subdirsOf extract_dir) folder_name
      let files := fs.filesUnder model_root
      if files.isEmpty then ([], log ++ ["WARNING: No files found in extracted model"])
      else (determine_required_files files model_type, log)

/-- Embeds the per-descriptor body of main (lines 528 to 571): skip on a
missing URL, probe the size, generate a preliminary label, download and
classify, recover the size from the cached file on disk when the probe
returned 0 for a remote URL, and overwrite the required and label fields
of the descriptor.  All embedded operations are total, matching the
try and except of the source that swallows any per-descriptor error. -/
def process_descriptor (net : NetEnv) (fs : FsEnv) (temp_dir cache_dir : String)
    (m : Model) : Model × List String :=
  if m.url = "" then
    (m, ["WARNING: No URL provided, skipping"])
  else
    let file_size := (get_file_size net).1
    let size_str := format_size file_size
    let generated_label := generate_label m size_str
    let res := download_and_analyze_model fs temp_dir cache_dir m.url m.folder m.type
    let generated_label :=
      if file_size == 0 && !(pyStartsWith m.url "file://") then
        let cache_path := pathJoin cache_dir (basename m.url)
        if fs.fileExists cache_path then
          generate_label m (format_size (fs.getsize cache_path))
        else generated_label
      else generated_label
    ({ m with required := res.1, label := generated_label }, res.2)

/-- One resolution pass of the classifier and labeler over a descriptor,
as performed at lines 548, 552, 568 and 569 of main: the required field
becomes the classifier output for the inventory and the label field the
generated label. -/
def resolve_update (m : Model) (files : List String) (size_str : String) : Model :=
  { m with required := determine_required_files files m.type,
           label := generate_label m size_str }

/-! ## Supporting lemmas -/

/-- Rounding num / den to the nearest integer differs from the exact
value by at most half of den: the rendered multiple of den is a nearest
one to num. -/
theorem roundHalfEven_dist (num den : Nat) (hden : 0 < den) :
    2 * Nat.dist (roundHalfEven num den * den) num ≤ den := by
  have h1 : den * (num / den) + num % den = num := Nat.div_add_mod num den
  have h2 : num % den < den := Nat.mod_lt _ hden
  unfold roundHalfEven
  simp only [Nat.dist]
  generalize hq : num / den = q at h1 ⊢
  generalize hr : num % den = r at h1 h2 ⊢
  obtain ⟨t, ht⟩ : ∃ t, den * q = t := ⟨_, rfl⟩
  rw [ht] at h1
  have hc1 : q * den = t := by rw [Nat.mul_comm]; exact ht
  have hc2 : (q + 1) * den = t + den := by rw [Nat.add_mul, hc1, Nat.one_mul]
  split_ifs with ha hb hcq
  · rw [hc1]; omega
  · rw [hc2]; omega
  · rw [hc1]; omega
  · rw [hc2]; omega

/-- Branch selection of format_size in the KB range. -/
theorem format_size_eq_KB (size : Nat) (h1 : 1024 ≤ size) (h2 : size < 1048576) :
    format_size size = toString (roundHalfEven size 1024) ++ "KB" := by
  unfold format_size
  rw [if_neg (by omega), if_neg (by omega), if_pos (by norm_num; omega)]

/-- Branch selection of format_size in the MB range. -/
theorem format_size_eq_MB (size : Nat) (h1 : 1048576 ≤ size) (h2 : size < 1073741824) :
    format_size size = toString (roundHalfEven size (1024 ^ 2)) ++ "MB" := by
  unfold format_size
  rw [if_neg (by omega), if_neg (by omega), if_neg (by norm_num; omega),
    if_pos (by norm_num; omega)]

/-- Branch selection of format_size in the GB range. -/
theorem format_size_eq_GB (size : Nat) (h1 : 1073741824 ≤ size)
    (h2 : size < 1099511627776) :
    format_size size = toString (roundHalfEven size (1024 ^ 3)) ++ "GB" := by
  unfold format_size
  rw [if_neg (by omega), if_neg (by omega), if_neg (by norm_num; omega),
    if_neg (by norm_num; omega), if_pos (by norm_num; omega)]

/-! ## Claim theorems -/

/-- C4 counterexample: the byte count 3 * 2 ^ 39 is 1.5 terabytes
exactly; format_size renders it as "1.5TB", which is not the rendering
of a whole number of the unit (the nearest whole numbers to the exact
value 1.5 are 1 and 2), so the rendering does not round to the nearest
whole number at every unit from KB upward. -/
theorem format_size_tb_fractional :
    format_size (3 * 2 ^ 39) = "1.5TB" ∧
    format_size (3 * 2 ^ 39) ≠ toString 1 ++ "TB" ∧
    format_size (3 * 2 ^ 39) ≠ toString 2 ++ "TB" := by
  decide

/-- C4 (amended): format_size maps 0 to "unknown", 512 to "512B" and
1536 to "2KB"; below 1024 bytes the value is rendered as the exact whole
byte count, and at the KB, MB and GB units the rendered number is a
nearest whole multiple of the unit (ties to even); the TB unit instead
renders one decimal place. -/
theorem format_size_spec :
    format_size 0 = "unknown" ∧ format_size 512 = "512B" ∧
    format_size 1536 = "2KB" ∧
    (∀ size : Nat, 0 < size → size < 1024 →
      format_size size = toString size ++ "B") ∧
    (∀ size k : Nat, 1 ≤ k → k ≤ 3 → 1024 ^ k ≤ size → size < 1024 ^ (k + 1) →
      format_size size = toString (roundHalfEven size (1024 ^ k)) ++ size_unit_name k ∧
      2 * Nat.dist (roundHalfEven size (1024 ^ k) * 1024 ^ k) size ≤ 1024 ^ k) := by
  refine ⟨by decide, by decide, by decide, ?_, ?_⟩
  · intro size h0 h1
    unfold format_size
    rw [if_neg (by omega), if_pos h1]
  · intro size k hk1 hk3 hlo hhi
    interval_cases k
    · norm_num at hlo hhi
      refine ⟨?_, roundHalfEven_dist size (1024 ^ 1) (by norm_num)⟩
      rw [show (1024 : Nat) ^ 1 = 1024 from by norm_num]
      rw [format_size_eq_KB size hlo hhi]
      rfl
    · norm_num at hlo hhi
      refine ⟨?_, roundHalfEven_dist size (1024 ^ 2) (by norm_num)⟩
      rw [format_size_eq_MB size hlo hhi]
      rfl
    · norm_num at hlo hhi
      refine ⟨?_, roundHalfEven_dist size (1024 ^ 3) (by norm_num)⟩
      rw [format_size_eq_GB size hlo hhi]
      rfl

/-- C4 witness: the amended theorem applied at the concrete byte count
2047 in the KB range. -/
theorem format_size_spec_witness :
    format_size 2047 = toString (roundHalfEven 2047 (1024 ^ 1)) ++ size_unit_name 1 ∧
    2 * Nat.dist (roundHalfEven 2047 (1024 ^ 1) * 1024 ^ 1) 2047 ≤ 1024 ^ 1 :=
  format_size_spec.2.2.2.2 2047 1 (by decide) (by decide) (by decide) (by decide)

/-- A character list is never lexicographically below the empty list. -/
theorem not_list_lt_nil (l : List Char) : ¬ List.lt l ([] : List Char) := by
  intro h
  cases h

/-- The Boolean comparison listLeChars decides the negation of the
lexicographic strict order in the reverse direction. -/
theorem listLeChars_iff :
    ∀ as bs : List Char, listLeChars as bs = true ↔ ¬ List.lt bs as := by
  intro as
  induction as with
  | nil =>
    intro bs
    exact ⟨fun _ => not_list_lt_nil bs, fun _ => rfl⟩
  | cons a as ih =>
    intro bs
    cases bs with
    | nil =>
      simp only [listLeChars]
      constructor
      · intro h
        exact absurd h (by simp)
      · intro h
        exact absurd (List.lt.nil a as) h
    | cons b bs =>
      simp only [listLeChars]
      by_cases hab : a < b
      · rw [if_pos hab]
        constructor
        · intro _ h
          cases h with
          | head _ _ h' => exact lt_asymm hab h'
          | tail h1 h2 h3 => exact h2 hab
        · intro _
          rfl
      · rw [if_neg hab]
        by_cases hba : b < a
        · rw [if_pos hba]
          constructor
          · intro h
            exact absurd h (by simp)
          · intro h
            exact absurd (List.lt.head bs as hba) h
        · rw [if_neg hba]
          rw [ih bs]
          constructor
          · intro h hcons
            cases hcons with
            | head _ _ h' => exact hba h'
            | tail h1 h2 h3 => exact h h3
          · intro h hlt
            exact h (List.lt.tail hba hab hlt)

/-- strLe decides the linear order on strings. -/
theorem strLe_iff (a b : String) : strLe a b = true ↔ a ≤ b := by
  rw [String.le_iff_toList_le, ← not_lt]
  constructor
  · intro h hlt
    exact (listLeChars_iff a.data b.data).mp h ((List.lt_iff_lex_lt b.data a.data).mpr hlt)
  · intro h
    exact (listLeChars_iff a.data b.data).mpr
      (fun hlt => h ((List.lt_iff_lex_lt b.data a.data).mp hlt))

instance : IsTotal String (fun a b => strLe a b = true) :=
  ⟨fun a b => by
    rcases le_total a b with h | h
    · exact Or.inl ((strLe_iff a b).mpr h)
    · exact Or.inr ((strLe_iff b a).mpr h)⟩

instance : IsTrans String (fun a b => strLe a b = true) :=
  ⟨fun a b c hab hbc =>
    (strLe_iff a c).mpr (le_trans ((strLe_iff a b).mp hab) ((strLe_iff b c).mp hbc))⟩

/-- sortStr produces a list sorted in the lexicographic string order. -/
theorem sortStr_sorted (l : List String) : List.Sorted (· ≤ ·) (sortStr l) :=
  (List.sorted_insertionSort (fun a b => strLe a b = true) l).imp
    (fun hab => (strLe_iff _ _).mp hab)

/-- Membership is preserved by sortStr. -/
theorem sortStr_mem {a : String} {l : List String} : a ∈ sortStr l ↔ a ∈ l :=
  (List.perm_insertionSort (fun a b => strLe a b = true) l).mem_iff

/-- sortStr preserves freedom from duplicates. -/
theorem sortStr_nodup {l : List String} (h : l.Nodup) : (sortStr l).Nodup :=
  (List.perm_insertionSort (fun a b => strLe a b = true) l).nodup_iff.mpr h

/-- C6: on a duplicate-free inventory and any model type, the classifier
output is a subset of the inventory, lexicographically sorted and free
of duplicates; the empty inventory gives the empty list, and so does any
unrecognized model type. -/
theorem determine_required_files_shape (files : List String) (t : String)
    (hnd : files.Nodup) :
    determine_required_files files t ⊆ files ∧
    List.Sorted (· ≤ ·) (determine_required_files files t) ∧
    (determine_required_files files t).Nodup ∧
    determine_required_files [] t = [] ∧
    (t ∉ (["stt", "tts", "vad", "vision"] : List String) →
      determine_required_files files t = []) := by
  refine ⟨?_, ?_, ?_, ?_, ?_⟩
  · intro a ha
    simp only [determine_required_files] at ha
    rw [sortStr_mem] at ha
    split_ifs at ha <;>
      first
      | exact (List.mem_filter.mp ha).1
      | exact absurd ha (List.not_mem_nil a)
  · exact sortStr_sorted _
  · simp only [determine_required_files]
    refine sortStr_nodup ?_
    split_ifs <;> first | exact hnd.filter _ | exact List.nodup_nil
  · simp only [determine_required_files]
    split_ifs <;> simp [sortStr]
  · intro ht
    simp only [List.mem_cons, List.not_mem_nil, or_false, not_or] at ht
    obtain ⟨h1, h2, h3, h4⟩ := ht
    simp only [determine_required_files]
    rw [if_neg (by simpa using h1), if_neg (by simpa using h2),
      if_neg (by simpa using h3), if_neg (by simpa using h4)]
    simp [sortStr]

/-- C6 witness: the shape theorem applied to a concrete inventory with
the speech-to-text type. -/
theorem determine_required_files_shape_witness :
    (["b.onnx", "a.txt"] : List String).Nodup ∧
    (determine_required_files ["b.onnx", "a.txt"] "stt" ⊆ ["b.onnx", "a.txt"] ∧
     List.Sorted (· ≤ ·) (determine_required_files ["b.onnx", "a.txt"] "stt") ∧
     (determine_required_files ["b.onnx", "a.txt"] "stt").Nodup ∧
     determine_required_files [] "stt" = [] ∧
     ("stt" ∉ (["stt", "tts", "vad", "vision"] : List String) →
       determine_required_files ["b.onnx", "a.txt"] "stt" = [])) :=
  ⟨by decide, determine_required_files_shape ["b.onnx", "a.txt"] "stt" (by decide)⟩

/-- C2 counterexample: an upper-case model weight file is not selected
by the classifier although its lower-case spelling is, so the extension
rule is not case-insensitive. -/
theorem determine_required_files_case_sensitive :
    determine_required_files ["MODEL.ONNX"] "stt" = [] ∧
    determine_required_files ["model.onnx"] "stt" = ["model.onnx"] := by
  decide

/-- C2 (amended): for the speech-to-text and text-to-speech types a file
is selected exactly when it ends in the lower-case model-weight
extension or its lowercased name contains "token" or "vocab" (so the
substring rules are case-insensitive but the extension rule is
case-sensitive); for the voice-activity-detection and vision types only
the case-sensitive extension rule applies. -/
theorem determine_required_files_rules (files : List String) (f : String) :
    (∀ t, t = "stt" ∨ t = "tts" →
      (f ∈ determine_required_files files t ↔
        f ∈ files ∧
          (pyEndsWith f ".onnx" || pyIn "token" (pyLower f) || pyIn "vocab" (pyLower f)) = true)) ∧
    (∀ t, t = "vad" ∨ t = "vision" →
      (f ∈ determine_required_files files t ↔
        f ∈ files ∧ pyEndsWith f ".onnx" = true)) := by
  constructor
  · rintro t (rfl | rfl) <;>
      simp [determine_required_files, sortStr_mem, List.mem_filter]
  · rintro t (rfl | rfl) <;>
      simp [determine_required_files, sortStr_mem, List.mem_filter]

/-- C2 witness: the rule characterization applied to a concrete
inventory holding one lower-case token file in upper case. -/
theorem determine_required_files_rules_witness :
    "Good_TOKENS.bin" ∈ determine_required_files ["Good_TOKENS.bin"] "stt" :=
  ((determine_required_files_rules ["Good_TOKENS.bin"] "Good_TOKENS.bin").1
    "stt" (Or.inl rfl)).mpr ⟨by decide, by decide⟩

/-- The descriptor of the label-composition test: key whisper-tiny-en,
speech-to-text type, no explicit kind and no prior label. -/
def whisperTinyEn : Model :=
  { key := "whisper-tiny-en", type := "stt", kind := "", url := "u",
    folder := "f", label := "", required := [] }

/-- C5: for the whisper-tiny-en descriptor with measured size 42000000
bytes the generated label is exactly
"whisper-tiny-en [Tiny] (STT, English, ~40MB)", which contains the tier
marker, the task marker, the language marker and the size fragment. -/
theorem whisper_label_composition :
    format_size 42000000 = "40MB" ∧
    generate_label whisperTinyEn (format_size 42000000) =
      "whisper-tiny-en [Tiny] (STT, English, ~40MB)" ∧
    (pyIn "[Tiny]" (generate_label whisperTinyEn (format_size 42000000)) &&
     pyIn "STT" (generate_label whisperTinyEn (format_size 42000000)) &&
     pyIn "English" (generate_label whisperTinyEn (format_size 42000000)) &&
     pyIn "~40MB" (generate_label whisperTinyEn (format_size 42000000))) = true := by
  decide

/-- C7: an extraction that produced exactly one subdirectory resolves
the model root to that subdirectory whatever its name, and any other
number of subdirectories resolves to the destination itself. -/
theorem resolve_model_root_spec :
    (∀ (extract_dir d folder_name : String),
      resolve_model_root extract_dir [d] folder_name = pathJoin extract_dir d) ∧
    (∀ (extract_dir folder_name : String) (subdirs : List String),
      subdirs.length ≠ 1 →
      resolve_model_root extract_dir subdirs folder_name = extract_dir) := by
  constructor
  · intro extract_dir d folder_name
    simp only [resolve_model_root]
    split_ifs with h1 h2 <;> first | rfl | exact absurd rfl h2
  · intro extract_dir folder_name subdirs h
    have hb : (subdirs.length == 1) = false := by simp [h]
    simp [resolve_model_root, hb]

/-- C7 witness: a single subdirectory not matching the declared folder
name, and a two-subdirectory extraction. -/
theorem resolve_model_root_spec_witness :
    resolve_model_root "/e" ["sub"] "declared" = pathJoin "/e" "sub" ∧
    resolve_model_root "/e" ["a", "b"] "a" = "/e" :=
  ⟨resolve_model_root_spec.1 "/e" "sub" "declared",
   resolve_model_root_spec.2 "/e" "a" ["a", "b"] (by decide)⟩

/-- C8: an archive path carrying none of the handled suffixes (the
compressed-tar variants, zip, or the bare ONNX single-file format that
the pipeline copies instead of extracting) makes extract_archive fail
with the typed unsupported-format error naming the path. -/
theorem extract_archive_unsupported :
    ∀ (runtimeOk : Bool) (path : String),
      pyEndsWith path ".tar.bz2" = false → pyEndsWith path ".tar.gz" = false →
      pyEndsWith path ".zip" = false → pyEndsWith path ".onnx" = false →
      extract_archive runtimeOk path = .error (.unsupportedFormat path) := by
  intro runtimeOk path h1 h2 h3 _
  simp [extract_archive, h1, h2, h3]

/-- C8 witness: the unsupported-format theorem applied to a concrete
bin-suffixed path. -/
theorem extract_archive_unsupported_witness :
    extract_archive true "model.bin" =
      .error (.unsupportedFormat "model.bin") :=
  extract_archive_unsupported true "model.bin" (by decide) (by decide)
    (by decide) (by decide)

/-- A descriptor whose key contains the marker "english" that the
labeler only looks for in the label field. -/
def englishModel : Model :=
  { key := "english-model", type := "stt", kind := "", url := "u",
    folder := "f", label := "", required := [] }

/-- C9 counterexample: running the resolution pass twice on the same
inventory and size is not idempotent for the label, because the second
pass re-reads the label written by the first pass and finds the marker
"english" in it; the first pass yields
"english-model (STT, ~40MB)" and the second
"english-model (STT, English, ~40MB)". -/
theorem resolve_update_not_idempotent :
    (resolve_update (resolve_update englishModel ["model.onnx"] "40MB")
        ["model.onnx"] "40MB").label ≠
      (resolve_update englishModel ["model.onnx"] "40MB").label ∧
    (resolve_update englishModel ["model.onnx"] "40MB").label =
      "english-model (STT, ~40MB)" ∧
    (resolve_update (resolve_update englishModel ["model.onnx"] "40MB")
        ["model.onnx"] "40MB").label =
      "english-model (STT, English, ~40MB)" := by
  decide

/-- C9 (amended): running the resolution pass twice yields identical
required values, and the classifier and labeler are functions only of
the inventory and declared type, respectively of the key, prior label,
type, kind and size string; the label itself is not idempotent because
the second pass reads the label written by the first. -/
theorem resolve_update_deterministic :
    (∀ (m : Model) (files : List String) (s : String),
      (resolve_update (resolve_update m files s) files s).required =
        (resolve_update m files s).required) ∧
    (∀ (m₁ m₂ : Model) (s : String), m₁.key = m₂.key → m₁.label = m₂.label →
      m₁.type = m₂.type → m₁.kind = m₂.kind →
      generate_label m₁ s = generate_label m₂ s) ∧
    (∀ (m : Model) (files : List String) (s : String),
      (resolve_update m files s).required = determine_required_files files m.type) := by
  refine ⟨fun m files s => rfl, ?_, fun m files s => rfl⟩
  intro m₁ m₂ s hk hl ht hkd
  cases m₁
  cases m₂
  simp only at hk hl ht hkd
  subst hk hl ht hkd
  simp [generate_label, extract_model_metadata]

/-- C9 witness: the determinism theorem applied to two descriptors that
agree on key, label, type and kind but differ in url, folder and
required. -/
theorem resolve_update_deterministic_witness :
    generate_label
        { key := "k", type := "stt", kind := "", url := "u1",
          folder := "f1", label := "L", required := [] } "1KB" =
      generate_label
        { key := "k", type := "stt", kind := "", url := "u2",
          folder := "f2", label := "L", required := ["r.onnx"] } "1KB" :=
  resolve_update_deterministic.2.1
    { key := "k", type := "stt", kind := "", url := "u1",
      folder := "f1", label := "L", required := [] }
    { key := "k", type := "stt", kind := "", url := "u2",
      folder := "f2", label := "L", required := ["r.onnx"] }
    "1KB" rfl rfl rfl rfl

/-- The network environment of the C3 counterexample: the header-only
query succeeds but carries no content-length header, while the ranged
fetch would succeed and report a total of 12345 bytes. -/
def headNoLengthEnv : NetEnv :=
  { head := .ok { contentLength := none, contentRange := none },
    rangeGet := .ok { contentLength := some "12345",
                      contentRange := some "bytes 0-0/12345" } }

/-- C3 counterexample: when the HEAD query succeeds without a usable
content length the prober returns 0 immediately and never issues the
single-byte ranged fetch, although that fetch would have yielded the
size 12345. -/
theorem get_file_size_skips_range_stage :
    get_file_size headNoLengthEnv = (0, false) ∧
    rangeFallback headNoLengthEnv = (12345, true) := by
  decide

/-- C3 (amended): the ranged fetch is issued exactly when the first
stage raises (a transport error, or an unparsable content-length); a
HEAD response without a truthy content-length returns 0 with no ranged
fetch, and when the fallback runs it reads the total from the
range-description header, falls back to the content-length header of
the same response, and returns 0 if everything fails. -/
theorem get_file_size_stages :
    (∀ (env : NetEnv) (r : HttpResp), env.head = .ok r →
      (r.contentLength = none ∨ r.contentLength = some "") →
      get_file_size env = (0, false)) ∧
    (∀ env : NetEnv, env.head = .error () →
      get_file_size env = rangeFallback env ∧ (rangeFallback env).2 = true) ∧
    (∀ (env : NetEnv) (resp : HttpResp) (cr : String) (n : Nat),
      env.rangeGet = .ok resp → resp.contentRange = some cr → cr ≠ "" →
      parsePyInt (pyLastSegment cr '/') = some n →
      rangeFallback env = (n, true)) ∧
    (∀ (env : NetEnv) (resp : HttpResp) (cl : String) (n : Nat),
      env.rangeGet = .ok resp → resp.contentRange = none →
      resp.contentLength = some cl → cl ≠ "" → parsePyInt cl = some n →
      rangeFallback env = (n, true)) ∧
    (∀ env : NetEnv, env.rangeGet = .error () → rangeFallback env = (0, true)) := by
  refine ⟨?_, ?_, ?_, ?_, ?_⟩
  · intro env r hh hcl
    simp only [get_file_size, hh]
    rcases hcl with h | h <;> simp [h]
  · intro env hh
    refine ⟨by simp [get_file_size, hh], ?_⟩
    have hcl : ∀ resp : HttpResp, (clFallback resp).2 = true := by
      intro resp
      simp only [clFallback]
      split
      · split_ifs with h
        · split <;> rfl
        · rfl
      · rfl
    simp only [rangeFallback]
    split
    · rfl
    · split
      · split_ifs with h1 h2
        · split <;> rfl
        · exact hcl _
        · exact hcl _
      · exact hcl _
  · intro env resp cr n hr hcr hne hp
    have htot : pyLastSegment cr '/' ≠ "" := by
      intro h
      rw [h] at hp
      simp [parsePyInt] at hp
    simp [rangeFallback, hr, hcr, hne, htot, hp]
  · intro env resp cl n hr hcr hcl hne hp
    simp [rangeFallback, hr, hcr, clFallback, hcl, hne, hp]
  · intro env hr
    simp [rangeFallback, hr]

/-- C3 witness: the staged theorem applied to a concrete environment
whose HEAD request raises and whose ranged fetch answers with a
range-description header. -/
theorem get_file_size_stages_witness :
    rangeFallback
        (⟨.error (), .ok ⟨none, some "bytes 0-0/777"⟩⟩ : NetEnv) = (777, true) :=
  get_file_size_stages.2.2.1
    (⟨.error (), .ok ⟨none, some "bytes 0-0/777"⟩⟩ : NetEnv)
    (⟨none, some "bytes 0-0/777"⟩ : HttpResp)
    "bytes 0-0/777" 777 rfl rfl (by decide) (by decide)

/-- A network environment in which both size probes raise, as happens
for a file URL naming a nonexistent local file. -/
def failNet : NetEnv := { head := .error (), rangeGet := .error () }

/-- A filesystem environment with no files anywhere. -/
def noFileFs : FsEnv :=
  { fileExists := fun _ => false, getsize := fun _ => 0, downloadOk := false,
    copyExtractOk := true, subdirsOf := fun _ => [], filesUnder := fun _ => [] }

/-- A descriptor pointing at a nonexistent local file, carrying prior
required and label values. -/
def missingLocalModel : Model :=
  { key := "m", type := "stt", kind := "", url := "file:///does/not/exist",
    folder := "f", label := "old-label", required := ["keep.onnx"] }

/-- C1 counterexample: processing a descriptor whose file URL names a
nonexistent local file reports the failure and returns normally, but
does not leave the required field unmodified: the prior value
keep.onnx is overwritten with the empty list (and the label is
overwritten as well). -/
theorem missing_local_file_overwrites_required :
    (process_descriptor failNet noFileFs "/tmp" "/cache" missingLocalModel).1.required
        = [] ∧
    missingLocalModel.required = ["keep.onnx"] ∧
    (process_descriptor failNet noFileFs "/tmp" "/cache" missingLocalModel).2
        = ["ERROR: File not found: /does/not/exist"] ∧
    (process_descriptor failNet noFileFs "/tmp" "/cache" missingLocalModel).1.label
        = "m (STT, ~unknown)" := by
  decide

/-- C1 (amended): for every descriptor whose URL has the file scheme
and whose stripped path does not exist, the pipeline reports the
failure and proceeds without raising (the embedded step is total), but
overwrites required with the empty list and label with the freshly
generated label; all non-derived fields are left unchanged. -/
theorem process_missing_local_file (net : NetEnv) (fs : FsEnv)
    (temp_dir cache_dir : String) (m : Model)
    (hurl : pyStartsWith m.url "file://" = true)
    (hmiss : fs.fileExists (pyReplace m.url "file://" "") = false) :
    (process_descriptor net fs temp_dir cache_dir m).1.required = [] ∧
    (process_descriptor net fs temp_dir cache_dir m).1.label =
      generate_label m (format_size (get_file_size net).1) ∧
    (process_descriptor net fs temp_dir cache_dir m).2 =
      ["ERROR: File not found: " ++ pyReplace m.url "file://" ""] ∧
    (process_descriptor net fs temp_dir cache_dir m).1.key = m.key ∧
    (process_descriptor net fs temp_dir cache_dir m).1.type = m.type ∧
    (process_descriptor net fs temp_dir cache_dir m).1.kind = m.kind ∧
    (process_descriptor net fs temp_dir cache_dir m).1.url = m.url ∧
    (process_descriptor net fs temp_dir cache_dir m).1.folder = m.folder := by
  have hne : m.url ≠ "" := by
    intro h
    rw [h] at hurl
    exact absurd hurl (by decide)
  simp only [process_descriptor, download_and_analyze_model, hurl, hmiss,
    if_neg hne, if_pos rfl, Bool.not_true, Bool.and_false, if_neg]
  simp

/-- C1 witness: the amended theorem applied to the concrete missing
local-file descriptor and the all-failing environments. -/
theorem process_missing_local_file_witness :
    (process_descriptor failNet noFileFs "/t" "/c" missingLocalModel).1.required = [] ∧
    (process_descriptor failNet noFileFs "/t" "/c" missingLocalModel).1.label =
      generate_label missingLocalModel (format_size (get_file_size failNet).1) ∧
    (process_descriptor failNet noFileFs "/t" "/c" missingLocalModel).2 =
      ["ERROR: File not found: " ++ pyReplace missingLocalModel.url "file://" ""] ∧
    (process_descriptor failNet noFileFs "/t" "/c" missingLocalModel).1.key =
      missingLocalModel.key ∧
    (process_descriptor failNet noFileFs "/t" "/c" missingLocalModel).1.type =
      missingLocalModel.type ∧
    (process_descriptor failNet noFileFs "/t" "/c" missingLocalModel).1.kind =
      missingLocalModel.kind ∧
    (process_descriptor failNet noFileFs "/t" "/c" missingLocalModel).1.url =
      missingLocalModel.url ∧
    (process_descriptor failNet noFileFs "/t" "/c" missingLocalModel).1.folder =
      missingLocalModel.folder :=
  process_missing_local_file failNet noFileFs "/t" "/c" missingLocalModel
    (by decide) (by decide)

/-- C10: a descriptor with an empty (or absent, loaded as empty) URL is
skipped with a warning before any mutation: the returned descriptor is
exactly the input one, required and label included. -/
theorem process_skips_empty_url (net : NetEnv) (fs : FsEnv)
    (temp_dir cache_dir : String) (m : Model) (h : m.url = "") :
    process_descriptor net fs temp_dir cache_dir m =
      (m, ["WARNING: No URL provided, skipping"]) := by
  simp [process_descriptor, h]

/-- C10 witness: the skip theorem applied to a concrete descriptor with
an empty URL. -/
theorem process_skips_empty_url_witness :
    process_descriptor failNet noFileFs "/t" "/c"
        { key := "k", type := "stt", kind := "", url := "",
          folder := "f", label := "L", required := ["r.onnx"] } =
      ({ key := "k", type := "stt", kind := "", url := "",
         folder := "f", label := "L", required := ["r.onnx"] },
       ["WARNING: No URL provided, skipping"]) :=
  process_skips_empty_url failNet noFileFs "/t" "/c"
    { key := "k", type := "stt", kind := "", url := "",
      folder := "f", label := "L", required := ["r.onnx"] } rfl

end ModelFiles
